import Mathlib

/-!
Verification of the session/result-state lifecycle, rendering contract and
export format of the trading-agent presentation layer (streamlit_app.py,
streamlit_utils.py, gradio_app.py, run_streamlit.py), shallowly embedded in
Lean.  Python dicts are modelled as association lists, string truthiness as
non-emptiness, and the external framework call as an `Except`-valued input.
-/

namespace TradingAgent

/-- Values stored in the analysis `final_state` mapping: report text, or an
ordered sequence of texts (the `debate_history` entry). -/
inductive FSVal where
  | text (s : String)
  | seq (l : List String)
deriving DecidableEq, Repr

/-- Python truthiness of a `final_state` value: a string is truthy iff
non-empty, a list iff non-empty. -/
def FSVal.truthy : FSVal → Bool
  | .text s => !s.isEmpty
  | .seq l => !l.isEmpty

/-- Python `str()` of a `final_state` value (identity on text; the exact
textual rendering of a list is abstracted, it is not exercised by any claim). -/
def FSVal.toStr : FSVal → String
  | .text s => s
  | .seq l => toString l

/-- The `final_state` mapping returned by the external framework, modelled as
an association list from report-kind key to value. -/
abbrev FinalState := List (String × FSVal)

/-- Python `key in final_state`. -/
def fsHas (fs : FinalState) (k : String) : Bool := (fs.lookup k).isSome

/-- Python `key in final_state and final_state[key]` (present and truthy). -/
def fsTruthy (fs : FinalState) (k : String) : Bool :=
  match fs.lookup k with
  | some v => v.truthy
  | none => false

/-- Python `str(final_state[key])` for a key guarded by `fsTruthy`
(empty string when absent, which no guarded use ever reads). -/
def fsStr (fs : FinalState) (k : String) : String :=
  match fs.lookup k with
  | some v => v.toStr
  | none => ""

/-- The `analysis_result` dict built by `run_analysis` (streamlit_app.py,
lines 325-332): a ResultBundle.  The datetime instant is abstracted as an
opaque string (its `isoformat` rendering). -/
structure AnalysisResult where
  ticker : String
  trade_date : String
  final_state : FinalState
  decision : String
  timestamp : String
  selected_analysts : List String
deriving DecidableEq, Repr

/-- Per-session state (streamlit `st.session_state` keys written by
`initialize_session_state`, `run_analysis` and `display_analysis_history`;
the `config` dict is opaque to every claim and omitted). -/
structure SessionState where
  analysis_history : List AnalysisResult
  current_analysis : Option AnalysisResult
  analysis_running : Bool
deriving DecidableEq, Repr

/-- `initialize_session_state` on a fresh session (streamlit_app.py,
lines 105-114): empty history, no current analysis, not running. -/
def initialize_session_state : SessionState :=
  { analysis_history := [], current_analysis := none, analysis_running := false }

/-- Errors surfaced by the invoker (§7 taxonomy): the distinct `st.error`
messages of `run_analysis` ("Please provide both ticker symbol and trade
date" vs "Analysis failed: ..." carrying the external exception text). -/
inductive RunError where
  | invalidInput
  | analysisFailed (msg : String)
deriving DecidableEq, Repr

/-- Outcome of the external framework call `ta.propagate(ticker, trade_date)`
(including construction of `TradingAgentsGraph`): a `(final_state, decision)`
pair, or the text of the exception it raised. -/
abbrev ExtCall := Except String (FinalState × String)

/-- The `analysis_result` dict assembled from the external call's outputs
(streamlit_app.py, lines 325-332). -/
def analysis_result (ticker trade_date : String) (final_state : FinalState)
    (decision now : String) (selected_analysts : List String) : AnalysisResult :=
  { ticker := ticker, trade_date := trade_date, final_state := final_state,
    decision := decision, timestamp := now, selected_analysts := selected_analysts }

/-- `run_analysis` (streamlit_app.py, lines 290-342).  Validates the inputs
(Python string truthiness: `if not ticker or not trade_date`), delegates to
the external call, and on success appends the new `analysis_result` to
history and sets it as current.  The `except` branch catches any external
exception, displays its text and returns `None`, leaving the state untouched.
Returns the updated session state with the result or error. -/
def run_analysis (ticker trade_date : String) (selected_analysts : List String)
    (ext : ExtCall) (now : String) (s : SessionState) :
    SessionState × Except RunError AnalysisResult :=
  if ticker.isEmpty || trade_date.isEmpty then
    (s, .error .invalidInput)
  else
    match ext with
    | .error msg => (s, .error (.analysisFailed msg))
    | .ok (final_state, decision) =>
        let r := analysis_result ticker trade_date final_state decision now
          selected_analysts
        ({ s with analysis_history := s.analysis_history ++ [r],
                  current_analysis := some r }, .ok r)

/-- The submission branch of `main` (streamlit_app.py, lines 594-597): on a
submitted form it sets `analysis_running := True`, calls `run_analysis`
synchronously, then sets `analysis_running := False`. -/
def submit_handler (ticker trade_date : String) (selected_analysts : List String)
    (ext : ExtCall) (now : String) (s : SessionState) :
    SessionState × Except RunError AnalysisResult :=
  let s1 : SessionState := { s with analysis_running := true }
  let p := run_analysis ticker trade_date selected_analysts ext now s1
  ({ p.1 with analysis_running := false }, p.2)

/-- The session-state writers: a form submission (lines 594-597) or the
history view-selection (`display_analysis_history`, lines 543-544, which sets
`current_analysis := analysis_history[i]` for an index offered by the
selectbox, i.e. `i < len(analysis_history)`). -/
inductive SessionOp where
  | submit (ticker trade_date : String) (selected_analysts : List String)
      (ext : ExtCall) (now : String)
  | viewHistory (i : Nat)

/-- One step of the session-state machine: the state after a writer runs. -/
def session_step (s : SessionState) : SessionOp → SessionState
  | .submit t d a ext now => (submit_handler t d a ext now s).1
  | .viewHistory i =>
      if h : i < s.analysis_history.length then
        { s with current_analysis := some (s.analysis_history.get ⟨i, h⟩) }
      else s

/-- The session-state interface invariant of claim C10: `current_analysis`
is absent or an element of `analysis_history`. -/
def currentInHistory (s : SessionState) : Prop :=
  ∀ r, s.current_analysis = some r → r ∈ s.analysis_history

/-! ### Result renderer (display_analysis_results, streamlit_app.py 344-441) -/

/-- A conditionally emitted section: the section title when the guard holds,
nothing otherwise. -/
def secIf (b : Bool) (title : String) : List String :=
  if b then [title] else []

/-- The named report sections emitted by `display_analysis_results` across
tabs 2-5 (streamlit_app.py, lines 388-441), in source order.  Every text
section is guarded by `key in final_state and final_state[key]`; the
"Debate History" section (line 419) is guarded only by
`'debate_history' in final_state`. -/
def display_sections (fs : FinalState) : List String :=
  secIf (fsTruthy fs "market_report") "📈 Market Analysis" ++
  secIf (fsTruthy fs "sentiment_report") "💭 Social Sentiment Analysis" ++
  secIf (fsTruthy fs "news_report") "📰 News Analysis" ++
  secIf (fsTruthy fs "fundamentals_report") "📊 Fundamentals Analysis" ++
  secIf (fsTruthy fs "investment_plan") "Research Team Recommendation" ++
  secIf (fsHas fs "debate_history") "Debate History" ++
  secIf (fsTruthy fs "trader_investment_plan") "Trader Analysis" ++
  secIf (fsTruthy fs "final_trade_decision") "Final Trade Decision" ++
  secIf (fsTruthy fs "risk_assessment") "Risk Analysis"

/-! ### Decision classifier (display_analysis_results, streamlit_app.py 376) -/

/-- Leading-segment test on character lists: `leadsWith n l` holds iff `l`
starts with `n`.  Backs the substring search below. -/
def leadsWith : List Char → List Char → Bool
  | [], _ => true
  | _ :: _, [] => false
  | a :: as, b :: bs => a = b && leadsWith as bs

/-- Occurrence of `needle` as a contiguous run of `hay`: the model of the
Python membership test `needle in hay` on strings, as a scan over the
character list. -/
def hasRun (needle : List Char) : List Char → Bool
  | [] => needle.isEmpty
  | c :: rest => leadsWith needle (c :: rest) || hasRun needle rest

/-- Python `needle in hay` for strings. -/
def strContains (hay needle : String) : Bool :=
  hasRun needle.toList hay.toList

/-- Specification-side statement that `needle` occurs as a substring of
`hay`: some split of the character list exhibits it. -/
def occursIn (needle hay : String) : Prop :=
  ∃ pre post, hay.toList = pre ++ needle.toList ++ post

/-- Python `s.lower()`: per-character lowercasing (written over the
character list so that it evaluates inside the kernel; it agrees with
`String.toLower`). -/
def str_lower (s : String) : String := String.mk (s.data.map Char.toLower)

/-- The decision classifier (streamlit_app.py, line 376):
`"green" if "buy" in str(decision).lower() else "red" if "sell" in
str(decision).lower() else "gray"`.  `str` on the decision string is the
identity. -/
def decision_color (decision : String) : String :=
  if strContains (str_lower decision) "buy" then "green"
  else if strContains (str_lower decision) "sell" then "red"
  else "gray"

/-! ### Gradio invoker (run_trading_analysis, gradio_app.py 19-79) -/

/-- The inline error message returned for an empty ticker
(gradio_app.py, line 26). -/
def gradio_invalid_ticker_msg : String := "❌ Please enter a stock ticker"

/-- The summary markdown built on success (gradio_app.py, lines 46-51);
the `datetime.now()` rendering is passed in as `now_str`. -/
def gradioSummary (ticker decision date_str now_str : String) : String :=
  "\n## 🎯 Final Decision for " ++ ticker ++ "\n**Decision:** " ++ decision ++
  "\n**Date:** " ++ date_str ++ "\n**Analysis Time:** " ++ now_str ++ "\n        "

/-- The per-analyst report blocks collected on success
(gradio_app.py, lines 54-62), in source order. -/
def gradioReportItems (fs : FinalState) : List String :=
  (if fsTruthy fs "market_report" then
    ["## 📊 Market Analysis\n" ++ fsStr fs "market_report" ++ "\n"] else []) ++
  (if fsTruthy fs "sentiment_report" then
    ["## 💭 Sentiment Analysis\n" ++ fsStr fs "sentiment_report" ++ "\n"] else []) ++
  (if fsTruthy fs "news_report" then
    ["## 📰 News Analysis\n" ++ fsStr fs "news_report" ++ "\n"] else []) ++
  (if fsTruthy fs "fundamentals_report" then
    ["## 📈 Fundamentals Analysis\n" ++ fsStr fs "fundamentals_report" ++ "\n"] else [])

/-- The trading-decision markdown accumulated on success
(gradio_app.py, lines 67-73). -/
def gradioTrading (fs : FinalState) : String :=
  (if fsTruthy fs "investment_plan" then
    "## 🔬 Research Team Decision\n" ++ fsStr fs "investment_plan" ++ "\n\n" else "") ++
  (if fsTruthy fs "trader_investment_plan" then
    "## 💼 Trading Plan\n" ++ fsStr fs "trader_investment_plan" ++ "\n\n" else "") ++
  (if fsTruthy fs "final_trade_decision" then
    "## 📋 Final Trade Decision\n" ++ fsStr fs "final_trade_decision" ++ "\n" else "")

/-- `run_trading_analysis` (gradio_app.py, lines 19-79): returns the
`(summary, detailed_reports, trading_info)` triple.  Checks framework
availability, then `if not ticker:` — the date string is never validated —
then delegates to the external call and formats its outcome. -/
def run_trading_analysis (ticker date_str : String)
    (selected_analysts : List String) (available : Bool) (ext : ExtCall)
    (now_str : String) : String × String × String :=
  if available = false then
    ("❌ TradingAgents framework not available", "", "")
  else if ticker.isEmpty then
    (gradio_invalid_ticker_msg, "", "")
  else
    match ext with
    | .error msg => ("❌ Analysis failed: " ++ msg, "", "")
    | .ok (final_state, decision) =>
        (gradioSummary ticker decision date_str now_str,
         String.intercalate "\n" (gradioReportItems final_state),
         gradioTrading final_state)

/-! ### JSON export (export_analysis_to_json, streamlit_utils.py 213-238) -/

/-- The seven keys the export loop iterates
(streamlit_utils.py, lines 228-230). -/
def exportKeys : List String :=
  ["market_report", "sentiment_report", "news_report", "fundamentals_report",
   "investment_plan", "trader_investment_plan", "final_trade_decision"]

/-- The exported value at one key: `str(final_state[key])` when the key is
present and truthy, nothing otherwise (the loop body's
`if key in final_state and final_state[key]` guard). -/
def exportVal (fs : FinalState) (k : String) : Option String :=
  match fs.lookup k with
  | some v => if v.truthy then some v.toStr else none
  | none => none

/-- The `final_state` sub-dict of the export, built by iterating
`exportKeys` in order and keeping the guarded entries. -/
def export_final_state (fs : FinalState) : List (String × String) :=
  exportKeys.filterMap fun k => (exportVal fs k).map fun s => (k, s)

/-- The serialisable `export_data` dict built by `export_analysis_to_json`
(streamlit_utils.py, lines 217-224).  `json.dumps` on this dict followed by
a JSON parse of the resulting string is the identity (a property of the
Python json library on string-keyed dicts of strings); parsing the exported
JSON string is therefore modelled as recovering this structure. -/
structure ExportData where
  ticker : String
  trade_date : String
  timestamp_iso : String
  decision : String
  selected_analysts : List String
  final_state : List (String × String)
deriving DecidableEq, Repr

/-- `export_analysis_to_json` (streamlit_utils.py, lines 213-238), up to the
`json.dumps` serialisation: the dict it serialises.  `timestamp.isoformat()`
is the abstracted instant string; `str(decision)` is the identity on the
decision string. -/
def export_analysis_to_json (r : AnalysisResult) : ExportData :=
  { ticker := r.ticker, trade_date := r.trade_date, timestamp_iso := r.timestamp,
    decision := r.decision, selected_analysts := r.selected_analysts,
    final_state := export_final_state r.final_state }

/-! ### Launcher (run_streamlit.py) -/

/-- Outcome of the launcher process: exit with a status code, or start the
streamlit server at an address and port. -/
inductive LaunchOutcome where
  | exited (code : Nat)
  | started (addr : String) (port : Nat)
deriving DecidableEq, Repr

/-- `check_requirements` (run_streamlit.py, lines 15-39): succeeds iff no
required package failed to import. -/
def check_requirements (missing_packages : List String) : Bool :=
  missing_packages.isEmpty

/-- `check_env_setup` (run_streamlit.py, lines 41-58): succeeds iff both
required environment variables are set. -/
def check_env_setup (missing_env_vars : List String) : Bool :=
  missing_env_vars.isEmpty

/-- `main` of run_streamlit.py (lines 60-103), with the importability and
environment probes supplied as the lists of missing items.  Only the
check-outcome messages are modelled alongside the outcome; banner prints are
omitted.  A failed app-file check or requirements check reaches
`sys.exit(1)`; a failed environment check prints a warning and proceeds to
start streamlit on localhost:8501. -/
def launcher_main (app_exists : Bool) (missing_packages missing_env_vars : List String) :
    LaunchOutcome × List String :=
  if app_exists = false then
    (.exited 1, ["❌ streamlit_app.py not found"])
  else if check_requirements missing_packages = false then
    (.exited 1,
     ["❌ Missing required packages: " ++ String.intercalate ", " missing_packages])
  else if check_env_setup missing_env_vars = false then
    (.started "localhost" 8501,
     ["⚠️  Missing environment variables: " ++ String.intercalate ", " missing_env_vars,
      "⚠️  Some environment variables missing (you can set them in the UI)"])
  else
    (.started "localhost" 8501, ["✅ Environment variables configured"])

/-! ### Concrete bundles and states used by counterexamples and witnesses -/

/-- A ResultBundle whose only populated report is the `risk_assessment`
kind. -/
def riskOnlyBundle : AnalysisResult :=
  { ticker := "NVDA", trade_date := "2024-11-17",
    final_state := [("risk_assessment", FSVal.text "High volatility risk")],
    decision := "HOLD", timestamp := "2024-11-17T10:00:00",
    selected_analysts := ["market"] }

/-- A ResultBundle with one populated exportable report. -/
def marketOnlyBundle : AnalysisResult :=
  { ticker := "AAPL", trade_date := "2024-11-18",
    final_state := [("market_report", FSVal.text "up")],
    decision := "BUY", timestamp := "2024-11-18T09:30:00",
    selected_analysts := ["market"] }

/-- A session whose in-flight flag is raised. -/
def busySession : SessionState :=
  { analysis_history := [], current_analysis := none, analysis_running := true }

/-- A report mapping whose only entry is an empty debate-history sequence. -/
def emptyDebateState : FinalState := [("debate_history", FSVal.seq [])]

/-! ## Helper lemmas -/

/-- `leadsWith n l` holds exactly when `l` extends `n`. -/
theorem leadsWith_iff : ∀ n l : List Char, leadsWith n l = true ↔ ∃ t, l = n ++ t
  | [], l => by simp [leadsWith]
  | a :: as, [] => by simp [leadsWith]
  | a :: as, b :: bs => by
      simp only [leadsWith, Bool.and_eq_true, decide_eq_true_eq, List.cons_append]
      constructor
      · rintro ⟨rfl, h⟩
        obtain ⟨t, rfl⟩ := (leadsWith_iff as bs).1 h
        exact ⟨t, rfl⟩
      · rintro ⟨t, ht⟩
        injection ht with h1 h2
        exact ⟨h1.symm, (leadsWith_iff as bs).2 ⟨t, h2⟩⟩

/-- The substring scan finds `n` exactly when some split of the scanned list
exhibits `n` as a contiguous run. -/
theorem hasRun_iff : ∀ n h : List Char, hasRun n h = true ↔ ∃ p t, h = p ++ n ++ t
  | n, [] => by cases n <;> simp [hasRun]
  | n, c :: rest => by
      simp only [hasRun, Bool.or_eq_true]
      rw [leadsWith_iff, hasRun_iff n rest]
      constructor
      · rintro (⟨t, ht⟩ | ⟨p, t, ht⟩)
        · exact ⟨[], t, by simp [ht]⟩
        · exact ⟨c :: p, t, by simp [ht]⟩
      · rintro ⟨p, t, ht⟩
        cases p with
        | nil => exact Or.inl ⟨t, by simpa using ht⟩
        | cons c2 p2 =>
            injection ht with h1 h2
            exact Or.inr ⟨p2, t, h2⟩

/-- Membership in a conditionally emitted section. -/
theorem mem_secIf (a : String) (b : Bool) (t : String) :
    a ∈ secIf b t ↔ b = true ∧ a = t := by
  cases b <;> simp [secIf]

/-- Looking a key up in a dict built by iterating a key list and keeping the
keys an oracle accepts. -/
theorem lookup_filterMap_keyed (g : String → Option String) :
    ∀ (L : List String) (k : String),
      (L.filterMap fun j => (g j).map fun s => (j, s)).lookup k
        = if k ∈ L then g k else none
  | [], k => by simp
  | j :: t, k => by
      cases hg : g j with
      | none =>
          rw [List.filterMap_cons]
          simp only [hg, Option.map_none']
          rw [lookup_filterMap_keyed g t k]
          by_cases hk : k = j
          · subst hk
            simp [hg]
          · simp [List.mem_cons, hk]
      | some s =>
          rw [List.filterMap_cons]
          simp only [hg, Option.map_some']
          by_cases hk : k = j
          · subst hk
            simp [List.lookup, hg]
          · have hbeq : (k == j) = false := by simp [hk]
            simp only [List.lookup, hbeq]
            rw [lookup_filterMap_keyed g t k]
            simp [hk]

/-- The exported final_state dict answers lookups through `exportVal`,
restricted to the seven export keys. -/
theorem export_final_state_lookup (fs : FinalState) (k : String) :
    (export_final_state fs).lookup k
      = if k ∈ exportKeys then exportVal fs k else none :=
  lookup_filterMap_keyed (exportVal fs) exportKeys k

/-! ## Claims -/

/-- C1, counterexample: for the bundle whose only populated report kind is
`risk_assessment`, the exported final_state does not carry that key even
though it is populated in the source, so parsing the export does not yield
exactly the populated key set. -/
theorem c1_export_cex :
    ¬ (((export_analysis_to_json riskOnlyBundle).final_state.lookup
          "risk_assessment").isSome
        ↔ fsTruthy riskOnlyBundle.final_state "risk_assessment" = true) := by
  decide

/-- C1 (amended): parsing the JSON produced by `export_analysis_to_json`
yields exactly those of the seven exportable report keys that are populated
(present and non-empty) in the source bundle's final_state, with the
`str`-image of the source value at each such key. -/
theorem c1_export_amended (r : AnalysisResult) (k : String) :
    (((export_analysis_to_json r).final_state.lookup k).isSome
        ↔ (k ∈ exportKeys ∧ fsTruthy r.final_state k = true)) ∧
    (∀ v : FSVal, r.final_state.lookup k = some v → v.truthy = true →
      k ∈ exportKeys →
      (export_analysis_to_json r).final_state.lookup k = some v.toStr) := by
  have base : (export_analysis_to_json r).final_state.lookup k
      = if k ∈ exportKeys then exportVal r.final_state k else none :=
    export_final_state_lookup r.final_state k
  constructor
  · rw [base]
    by_cases hk : k ∈ exportKeys
    · simp only [if_pos hk, hk, true_and]
      unfold exportVal fsTruthy
      cases hl : r.final_state.lookup k with
      | none => simp
      | some v => cases ht : v.truthy <;> simp [ht]
    · simp [hk]
  · intro v hv ht hk
    rw [base, if_pos hk]
    simp [exportVal, hv, ht]

/-- C1, witness: the amended theorem applied to a concrete bundle with one
populated exportable report. -/
theorem c1_export_amended_witness :
    (export_analysis_to_json marketOnlyBundle).final_state.lookup "market_report"
      = some "up" :=
  (c1_export_amended marketOnlyBundle "market_report").2 (FSVal.text "up") rfl rfl
    (by decide)

/-- C2, counterexample: a submission processed while the in-flight flag is
already raised is not rejected — the analysis runs and history grows from
0 to 1 entries, refuting "rejected and the history length is unchanged". -/
theorem c2_gate_cex :
    (submit_handler "NVDA" "2024-11-17" ["market"] (Except.ok ([], "BUY")) "t0"
        busySession).1.analysis_history.length = 1 ∧
    busySession.analysis_history.length = 0 ∧
    busySession.analysis_running = true := by
  refine ⟨rfl, rfl, rfl⟩

/-- C2 (amended): the submission handler never reads the running flag, so
the flag gates nothing: the handler's result is independent of the flag's
prior value, a valid submission from an in-flight state still appends to
history, and the flag is false after every submission (it is set before and
cleared after the single synchronous analysis call, which is the only
mutual-exclusion mechanism). -/
theorem c2_no_gate (ticker trade_date : String) (a : List String)
    (ext : ExtCall) (now : String) (s : SessionState) :
    (submit_handler ticker trade_date a ext now s).1.analysis_running = false ∧
    submit_handler ticker trade_date a ext now { s with analysis_running := true }
      = submit_handler ticker trade_date a ext now
          { s with analysis_running := false } ∧
    (ticker.isEmpty = false → trade_date.isEmpty = false → ∀ fs dec,
      (submit_handler ticker trade_date a (Except.ok (fs, dec)) now
          s).1.analysis_history.length
        = s.analysis_history.length + 1) := by
  refine ⟨rfl, ?_, ?_⟩
  · unfold submit_handler run_analysis
    by_cases h : (ticker.isEmpty || trade_date.isEmpty) = true
    · simp [h]
    · cases ext with
      | error m => simp [h]
      | ok p0 =>
          obtain ⟨fs, dec⟩ := p0
          simp [h]
  · intro ht hd fs dec
    simp [submit_handler, run_analysis, ht, hd]

/-- C2, witness: the amended theorem applied to a concrete submission from
the in-flight state. -/
theorem c2_no_gate_witness :
    (submit_handler "NVDA" "2024-11-17" ["market"] (Except.ok ([], "BUY")) "t0"
        busySession).1.analysis_running = false ∧
    (submit_handler "NVDA" "2024-11-17" ["market"] (Except.ok ([], "BUY")) "t0"
        busySession).1.analysis_history.length
      = busySession.analysis_history.length + 1 :=
  ⟨(c2_no_gate "NVDA" "2024-11-17" ["market"] (Except.ok ([], "BUY")) "t0"
      busySession).1,
   (c2_no_gate "NVDA" "2024-11-17" ["market"] (Except.ok ([], "BUY")) "t0"
      busySession).2.2 rfl rfl [] "BUY"⟩

/-- C3, counterexample: a bundle whose report mapping holds only an empty
debate-history sequence still renders the named "Debate History" section,
refuting "render produces no sections for those kinds". -/
theorem c3_render_cex :
    display_sections emptyDebateState = ["Debate History"] ∧
    fsTruthy emptyDebateState "debate_history" = false := by
  refine ⟨rfl, rfl⟩

/-- C3 (amended): for every report mapping, each of the eight text report
kinds gets its named section exactly when its text is present and non-empty;
the "Debate History" section instead appears exactly when the
`debate_history` key is present, even if the sequence is empty. -/
theorem c3_sections_amended (fs : FinalState) :
    ("📈 Market Analysis" ∈ display_sections fs
      ↔ fsTruthy fs "market_report" = true) ∧
    ("💭 Social Sentiment Analysis" ∈ display_sections fs
      ↔ fsTruthy fs "sentiment_report" = true) ∧
    ("📰 News Analysis" ∈ display_sections fs
      ↔ fsTruthy fs "news_report" = true) ∧
    ("📊 Fundamentals Analysis" ∈ display_sections fs
      ↔ fsTruthy fs "fundamentals_report" = true) ∧
    ("Research Team Recommendation" ∈ display_sections fs
      ↔ fsTruthy fs "investment_plan" = true) ∧
    ("Trader Analysis" ∈ display_sections fs
      ↔ fsTruthy fs "trader_investment_plan" = true) ∧
    ("Final Trade Decision" ∈ display_sections fs
      ↔ fsTruthy fs "final_trade_decision" = true) ∧
    ("Risk Analysis" ∈ display_sections fs
      ↔ fsTruthy fs "risk_assessment" = true) ∧
    ("Debate History" ∈ display_sections fs
      ↔ fsHas fs "debate_history" = true) := by
  simp only [display_sections, List.mem_append, mem_secIf]
  refine ⟨?_, ?_, ?_, ?_, ?_, ?_, ?_, ?_, ?_⟩ <;> simp

/-- C4: when the external framework call raises, the submission signals an
AnalysisFailed error carrying the external error's message text, leaves
history and current untouched, and ends with the in-flight flag cleared. -/
theorem c4_analysis_failed (ticker trade_date : String) (a : List String)
    (msg now : String) (s : SessionState)
    (ht : ticker.isEmpty = false) (hd : trade_date.isEmpty = false) :
    submit_handler ticker trade_date a (Except.error msg) now s
      = ({ s with analysis_running := false },
         Except.error (RunError.analysisFailed msg)) := by
  simp [submit_handler, run_analysis, ht, hd]

/-- C4, witness: the theorem applied to a concrete failing invocation. -/
theorem c4_analysis_failed_witness :
    submit_handler "NVDA" "2024-11-17" ["market"] (Except.error "rate limit")
        "t0" initialize_session_state
      = ({ initialize_session_state with analysis_running := false },
         Except.error (RunError.analysisFailed "rate limit")) :=
  c4_analysis_failed "NVDA" "2024-11-17" ["market"] "rate limit" "t0"
    initialize_session_state rfl rfl

/-- C5: a successful submission (non-empty ticker and date, external call
returns without error) grows history by exactly one, the appended entry is
the returned bundle, that bundle becomes current, and the in-flight flag
ends false. -/
theorem c5_success (ticker trade_date : String) (a : List String)
    (fs : FinalState) (dec now : String) (s : SessionState)
    (ht : ticker.isEmpty = false) (hd : trade_date.isEmpty = false) :
    (submit_handler ticker trade_date a (Except.ok (fs, dec)) now
        s).1.analysis_history.length = s.analysis_history.length + 1 ∧
    (submit_handler ticker trade_date a (Except.ok (fs, dec)) now
        s).1.analysis_history
      = s.analysis_history ++ [analysis_result ticker trade_date fs dec now a] ∧
    (submit_handler ticker trade_date a (Except.ok (fs, dec)) now s).2
      = Except.ok (analysis_result ticker trade_date fs dec now a) ∧
    (submit_handler ticker trade_date a (Except.ok (fs, dec)) now
        s).1.current_analysis
      = some (analysis_result ticker trade_date fs dec now a) ∧
    (submit_handler ticker trade_date a (Except.ok (fs, dec)) now
        s).1.analysis_running = false := by
  refine ⟨?_, ?_, ?_, ?_, rfl⟩ <;> simp [submit_handler, run_analysis, ht, hd]

/-- C5, witness: the theorem applied to a concrete successful invocation
from a fresh session. -/
theorem c5_success_witness :
    (submit_handler "NVDA" "2024-11-17" ["market"]
        (Except.ok ([("market_report", FSVal.text "up")], "BUY")) "t0"
        initialize_session_state).1.analysis_history.length
      = initialize_session_state.analysis_history.length + 1 :=
  (c5_success "NVDA" "2024-11-17" ["market"]
    [("market_report", FSVal.text "up")] "BUY" "t0"
    initialize_session_state rfl rfl).1

/-- C6, counterexample: with one required package missing the launcher exits
with status 1 and does not start the UI server, refuting "the launcher still
proceeds to start the UI server process on the fixed local port after either
check fails". -/
theorem c6_launcher_cex :
    (launcher_main true ["plotly"] []).1 = LaunchOutcome.exited 1 ∧
    (launcher_main true ["plotly"] []).1
      ≠ LaunchOutcome.started "localhost" 8501 := by
  decide

/-- C6 (amended): a failed environment-variable check only produces a
warning — the launcher still starts the server on localhost:8501 — while a
failed required-package check is a hard failure: the launcher exits with
status 1 and the server is not started. -/
theorem c6_launcher_amended (missing_packages missing_env_vars : List String) :
    ((launcher_main true [] missing_env_vars).1
      = LaunchOutcome.started "localhost" 8501) ∧
    (missing_packages ≠ [] →
      (launcher_main true missing_packages missing_env_vars).1
        = LaunchOutcome.exited 1) := by
  constructor
  · cases h : missing_env_vars.isEmpty <;>
      simp [launcher_main, check_requirements, check_env_setup, h]
  · intro hne
    cases missing_packages with
    | nil => exact absurd rfl hne
    | cons p ps => simp [launcher_main, check_requirements]

/-- C6, witness: the amended theorem applied with a concrete missing package
and a concrete missing environment variable. -/
theorem c6_launcher_amended_witness :
    (launcher_main true ["plotly"] ["OPENAI_API_KEY"]).1
      = LaunchOutcome.exited 1 ∧
    (launcher_main true [] ["OPENAI_API_KEY"]).1
      = LaunchOutcome.started "localhost" 8501 :=
  ⟨(c6_launcher_amended ["plotly"] ["OPENAI_API_KEY"]).2 (by decide),
   (c6_launcher_amended [] ["OPENAI_API_KEY"]).1⟩

/-- C7, counterexample: the gradio invoker called with a non-empty ticker
and an empty date does not return the inline invalid-input message — it
proceeds to the external call and formats its successful outcome. -/
theorem c7_empty_date_cex :
    run_trading_analysis "NVDA" "" ["market"] true (Except.ok ([], "BUY")) "t0"
      = (gradioSummary "NVDA" "BUY" "" "t0", "", "") ∧
    gradioSummary "NVDA" "BUY" "" "t0" ≠ gradio_invalid_ticker_msg := by
  exact ⟨rfl, by decide⟩

/-- C7 (amended): the streamlit invoker rejects an empty ticker or an empty
date with InvalidInput, leaving the session state (and so the history
length) unchanged and never reaching the external call; the gradio invoker
rejects only an empty ticker with its inline message — with a non-empty
ticker the external call is reached even when the date is empty, and its
failure surfaces as the analysis-failed message. -/
theorem c7_invalid_input_amended (t d : String) (a : List String)
    (ext : ExtCall) (now : String) (s : SessionState) (msg nowStr : String) :
    ((t.isEmpty = true ∨ d.isEmpty = true) →
      run_analysis t d a ext now s = (s, Except.error RunError.invalidInput)) ∧
    (run_trading_analysis "" d a true ext nowStr
      = (gradio_invalid_ticker_msg, "", "")) ∧
    (t.isEmpty = false →
      run_trading_analysis t d a true (Except.error msg) nowStr
        = ("❌ Analysis failed: " ++ msg, "", "")) := by
  refine ⟨?_, ?_, ?_⟩
  · intro h
    have hc : (t.isEmpty || d.isEmpty) = true := by
      cases h with
      | inl h1 => simp [h1]
      | inr h2 => simp [h2]
    simp [run_analysis, hc]
  · have he : "".isEmpty = true := rfl
    simp [run_trading_analysis, he]
  · intro h
    simp [run_trading_analysis, h]

/-- C7, witness: the streamlit part of the amended theorem applied to an
empty ticker on a fresh session. -/
theorem c7_invalid_input_amended_witness :
    run_analysis "" "2024-11-17" ["market"] (Except.ok ([], "BUY")) "t0"
        initialize_session_state
      = (initialize_session_state, Except.error RunError.invalidInput) :=
  (c7_invalid_input_amended "" "2024-11-17" ["market"]
    (Except.ok ([], "BUY")) "t0" initialize_session_state "m" "t0").1
    (Or.inl rfl)

/-- C8: the rendered decision classification is tri-state on the
case-insensitive string form of the decision — a decision containing "buy"
is styled positive (green), otherwise one containing "sell" is styled
negative (red), and otherwise neutral (gray); in particular "Strong Buy" is
positive, "SELL NOW" is negative, and "Hold" is neutral. -/
theorem c8_decision_classifier :
    (∀ d : String,
      (decision_color d = "green" ↔ occursIn "buy" (str_lower d)) ∧
      (decision_color d = "red"
        ↔ (occursIn "sell" (str_lower d) ∧ ¬ occursIn "buy" (str_lower d))) ∧
      (decision_color d = "gray"
        ↔ (¬ occursIn "buy" (str_lower d) ∧ ¬ occursIn "sell" (str_lower d)))) ∧
    decision_color "Strong Buy" = "green" ∧
    decision_color "SELL NOW" = "red" ∧
    decision_color "Hold" = "gray" := by
  have key : ∀ hay needle : String,
      strContains hay needle = true ↔ occursIn needle hay := by
    intro hay needle
    exact hasRun_iff needle.toList hay.toList
  refine ⟨?_, by decide, by decide, by decide⟩
  intro d
  have kb := key (str_lower d) "buy"
  have ks := key (str_lower d) "sell"
  unfold decision_color
  by_cases hb : strContains (str_lower d) "buy" = true
  · have ob : occursIn "buy" (str_lower d) := kb.1 hb
    rw [if_pos hb]
    refine ⟨iff_of_true rfl ob, iff_of_false (by decide) ?_,
      iff_of_false (by decide) ?_⟩
    · rintro ⟨-, hnb⟩
      exact hnb ob
    · rintro ⟨hnb, -⟩
      exact hnb ob
  · have nb : ¬ occursIn "buy" (str_lower d) := fun o => hb (kb.2 o)
    rw [if_neg hb]
    by_cases hs2 : strContains (str_lower d) "sell" = true
    · have os : occursIn "sell" (str_lower d) := ks.1 hs2
      rw [if_pos hs2]
      refine ⟨iff_of_false (by decide) nb, iff_of_true rfl ⟨os, nb⟩,
        iff_of_false (by decide) ?_⟩
      rintro ⟨-, hns⟩
      exact hns os
    · have ns : ¬ occursIn "sell" (str_lower d) := fun o => hs2 (ks.2 o)
      rw [if_neg hs2]
      refine ⟨iff_of_false (by decide) nb, iff_of_false (by decide) ?_,
        iff_of_true rfl ⟨nb, ns⟩⟩
      rintro ⟨os, -⟩
      exact ns os

/-- C10: at the session-state interface, `current_analysis` is always
absent or an element of `analysis_history`: it holds after initialization
and is preserved by every operation that writes it (a submission appends the
new bundle to history before setting it as current; the history
view-selection promotes an existing history entry). -/
theorem c10_current_in_history :
    currentInHistory initialize_session_state ∧
    ∀ (s : SessionState) (op : SessionOp),
      currentInHistory s → currentInHistory (session_step s op) := by
  constructor
  · intro r h
    simp [initialize_session_state] at h
  · intro s op hs
    cases op with
    | submit t d a ext now =>
        intro r hr
        by_cases hv : (t.isEmpty || d.isEmpty) = true
        · simp only [session_step, submit_handler, run_analysis, if_pos hv]
            at hr ⊢
          exact hs r hr
        · cases ext with
          | error m =>
              simp only [session_step, submit_handler, run_analysis,
                if_neg hv] at hr ⊢
              exact hs r hr
          | ok p0 =>
              obtain ⟨fs, dec⟩ := p0
              simp only [session_step, submit_handler, run_analysis,
                if_neg hv, Option.some.injEq] at hr ⊢
              subst hr
              simp
    | viewHistory i =>
        intro r hr
        by_cases h : i < s.analysis_history.length
        · simp only [session_step, dif_pos h, Option.some.injEq] at hr ⊢
          subst hr
          exact List.get_mem _ _ _
        · simp only [session_step, dif_neg h] at hr ⊢
          exact hs r hr

/-- C10, witness: the invariant transported through a concrete step from the
initial state. -/
theorem c10_current_in_history_witness :
    currentInHistory (session_step initialize_session_state
      (SessionOp.viewHistory 0)) :=
  c10_current_in_history.2 initialize_session_state (SessionOp.viewHistory 0)
    (by intro r h; simp [initialize_session_state] at h)

end TradingAgent
